import Mathlib

/-!
# Verification of the admission-control pipeline of the Airtable MCP server

This file shallowly embeds the request admission-control pipeline of
`src/mcp-airtable/airtable-mcp-server.js`: the policy tables
(`BillingPlanModel`, `TokenScopeModel`), the Express middleware chain
(`authMiddleware`, `featureCheckMiddleware`, `scopeCheckMiddleware`,
`confirmDestructiveOperationMiddleware`, the two rate-limit middlewares),
the route handler bodies for the operations cited by the claims, the
upstream 429-retry interceptor of `AirtableProvider`, and the error
translator `handleErrorResponse`.  JavaScript truthiness of optional
strings is modelled explicitly; absent or falsy-primitive values are
`none`.  Theorems about the claims follow the definitions.
-/

deriving instance DecidableEq for Except

set_option maxRecDepth 100000

namespace Airtable

/-- JavaScript truthiness of an optional string value: `undefined`/absent is
falsy, the empty string is falsy, every other string is truthy. -/
def jsTruthy : Option String → Bool
  | none => false
  | some s => s ≠ ""

/-- `String.prototype.split` with a one-character separator, on the
character list: splitting never yields an empty group list.  (Structural
recursion so that concrete requests evaluate inside the kernel.) -/
def splitCharsOn (sep : Char) : List Char → List (List Char)
  | [] => [[]]
  | c :: cs =>
    match splitCharsOn sep cs with
    | [] => [[c]]
    | g :: gs => if c = sep then [] :: g :: gs else (c :: g) :: gs

/-- `s.split(sep)` for a one-character separator. -/
def jsSplit (sep : Char) (s : String) : List String :=
  (splitCharsOn sep s.data).map (fun cs => String.mk cs)

/-- Whether the first list is an initial segment of the second. -/
def startsWithChars : List Char → List Char → Bool
  | [], _ => true
  | _ :: _, [] => false
  | p :: ps, c :: cs => p = c && startsWithChars ps cs

/-- `s.startsWith(p)`. -/
def jsStartsWith (s p : String) : Bool :=
  startsWithChars p.data s.data

/-- `s.toLowerCase()` (ASCII letters, as in the header values at issue). -/
def jsToLower (s : String) : String :=
  String.mk (s.data.map Char.toLower)

/-- An ASCII whitespace character, for `trim`. -/
def isSpaceChar (c : Char) : Bool :=
  c = ' ' || c = '\t' || c = '\n' || c = '\r'

/-- `s.trim()`. -/
def jsTrim (s : String) : String :=
  String.mk (((s.data.dropWhile isSpaceChar).reverse.dropWhile isSpaceChar).reverse)

/-- `xs.join(sep)`. -/
def jsJoin (sep : String) : List String → String
  | [] => ""
  | [x] => x
  | x :: xs => x ++ sep ++ jsJoin sep xs

/-- A JSON value in a request-body position where the code distinguishes
arrays from non-arrays (`Array.isArray`).  `arr n` is an array of `n`
items; `notArr` is any truthy non-array value.  Absent / falsy-primitive
values are modelled as `none` at the use site. -/
inductive JsonVal where
  | arr (n : Nat)
  | notArr
deriving DecidableEq, Repr

/-- The `records` query parameter of the delete-records route: Express may
give a string, an array of strings, or another shape (the handler's
`else` branch). -/
inductive QueryVal where
  | str (s : String)
  | list (xs : List String)
  | other
deriving DecidableEq, Repr

/-- A JSON error body as the server emits it.  `typed` is the nested
`{ error: { type, message, details? } }` shape used by the middlewares and
`handleErrorResponse`; `flat` is the flat `{ error, message }` body the
rate-limit middlewares send (the `message` option of the limiter). -/
inductive ErrBody where
  | typed (type message : String) (details : Option String)
  | flat (error message : String)
deriving DecidableEq, Repr

/-- An HTTP error response: status code plus JSON body. -/
structure ErrResp where
  status : Nat
  body : ErrBody
deriving DecidableEq, Repr

/-! ## BillingPlanModel -/

/-- `BillingPlanModel.PLAN_FEATURES`: features available by plan, in the
object-literal insertion order of the source (which is the iteration
order of `Object.entries`). -/
def PLAN_FEATURES : List (String × List String) :=
  [ ("free", ["base_data"]),
    ("teams", ["base_data"]),
    ("business", ["base_data", "scim_user_management"]),
    ("enterprise_scale",
      ["base_data", "views", "schema_modification", "webhooks",
       "scim_user_management", "enterprise_api", "change_events"]) ]

/-- `BillingPlanModel.hasFeature`, parametrised by the plan-feature table:
throws (`.error`) on an unknown plan, otherwise membership of the feature
in that plan's own feature list. -/
def hasFeatureIn (tbl : List (String × List String)) (plan feature : String) :
    Except String Bool :=
  match tbl.lookup plan with
  | none => .error ("Unknown billing plan: " ++ plan)
  | some feats => .ok (feats.contains feature)

/-- `BillingPlanModel.hasFeature` over the static table. -/
def hasFeature (plan feature : String) : Except String Bool :=
  hasFeatureIn PLAN_FEATURES plan feature

/-- `BillingPlanModel.getMinimumPlanForFeature`, parametrised by the table:
returns the first plan in table order whose feature list includes the
feature, throwing if no plan grants it. -/
def getMinimumPlanForFeatureIn (tbl : List (String × List String))
    (feature : String) : Except String String :=
  match tbl.find? (fun e => e.2.contains feature) with
  | some e => .ok e.1
  | none => .error ("Unknown feature: " ++ feature)

/-- `BillingPlanModel.getMinimumPlanForFeature` over the static table. -/
def getMinimumPlanForFeature (feature : String) : Except String String :=
  getMinimumPlanForFeatureIn PLAN_FEATURES feature

/-! ## TokenScopeModel -/

/-- `TokenScopeModel.ENDPOINT_SCOPES`: endpoint name to required scopes. -/
def ENDPOINT_SCOPES : List (String × List String) :=
  [ ("getTableRecords", ["data.records:read"]),
    ("getRecord", ["data.records:read"]),
    ("createRecords", ["data.records:write"]),
    ("updateRecords", ["data.records:write"]),
    ("deleteRecords", ["data.records:write"]),
    ("getComments", ["data.recordComments:read"]),
    ("createComment", ["data.recordComments:write"]),
    ("deleteComment", ["data.recordComments:write"]),
    ("updateComment", ["data.recordComments:write"]),
    ("getBases", ["schema.bases:read"]),
    ("getBaseSchema", ["schema.bases:read"]),
    ("createField", ["schema.bases:write"]),
    ("updateField", ["schema.bases:write"]),
    ("listWebhooks", ["webhook:manage"]),
    ("createWebhook", ["webhook:manage"]),
    ("deleteWebhook", ["webhook:manage"]),
    ("getAuditLogs", ["enterprise.auditLogs:read"]),
    ("getEnterpriseUsers", ["enterprise.user:read"]) ]

/-- `TokenScopeModel.hasRequiredScope`. -/
def hasRequiredScope (tokenScopes : List String) (requiredScope : String) : Bool :=
  tokenScopes.contains requiredScope

/-- `TokenScopeModel.hasRequiredScopesForEndpoint`: looks up the endpoint's
required scopes, defaulting to `[]` (`|| []` in the source) when the
endpoint is unknown, and requires each to be held. -/
def hasRequiredScopesForEndpoint (tokenScopes : List String) (endpoint : String) :
    Bool :=
  ((ENDPOINT_SCOPES.lookup endpoint).getD []).all
    (fun scope => hasRequiredScope tokenScopes scope)

/-! ## Requests and the middlewares -/

/-- The request metadata the modelled routes read: headers, route params,
body fields and the query-string records parameter.  Header and param
values that are absent (or falsy primitives) are `none`. -/
structure Request where
  authorization : Option String
  xBillingPlan : Option String
  xTokenScopes : Option String
  xConfirmDestructive : Option String
  ip : String
  baseId : Option String
  tableIdOrName : Option String
  webhookId : Option String
  bodyRecords : Option JsonVal
  bodyDestructive : Bool
  queryRecords : Option QueryVal
deriving DecidableEq, Repr

/-- What `authMiddleware` attaches to the request on success: the bearer
token, the (mock-resolved) billing plan and token scopes. -/
structure Principal where
  token : String
  billingPlan : String
  tokenScopes : List String
deriving DecidableEq, Repr

/-- The 401 body `authMiddleware` sends for a missing/malformed credential. -/
def authErr : ErrResp :=
  { status := 401,
    body := .typed "INVALID_REQUEST"
      "Authentication required. Please provide a valid token." none }

/-- `authMiddleware`: requires an authorization header starting with
`Bearer ` and a non-empty token after the first space
(`authHeader.split(' ')[1]`); attaches the token, the billing plan from
the `x-billing-plan` header (default `free`), and the token scopes from
the `x-token-scopes` header split on commas (default
`[data.records:read]`). -/
def authMiddleware (req : Request) : Except ErrResp Principal :=
  match req.authorization with
  | none => .error authErr
  | some h =>
    if ¬ jsStartsWith h "Bearer " then .error authErr
    else
      match (jsSplit ' ' h)[1]? with
      | none => .error authErr
      | some t =>
        if t = "" then .error authErr
        else
          .ok { token := t,
                billingPlan :=
                  if jsTruthy req.xBillingPlan then req.xBillingPlan.getD "free"
                  else "free",
                tokenScopes :=
                  if jsTruthy req.xTokenScopes then
                    jsSplit ',' (req.xTokenScopes.getD "")
                  else ["data.records:read"] }

/-- The 500 body sent when the feature check's `try` block throws. -/
def featureCheck500 : ErrResp :=
  { status := 500,
    body := .typed "SERVER_ERROR" "Failed to check feature availability." none }

/-- The 403 body for a plan lacking a feature, naming the minimum plan. -/
def featureUnavailableErr (minimumPlan : String) : ErrResp :=
  { status := 403,
    body := .typed "FEATURE_UNAVAILABLE"
      ("This feature requires the " ++ minimumPlan ++ " plan or higher.") none }

/-- `featureCheckMiddleware(feature)`: passes (`none`) when the plan has the
feature; sends 403 `FEATURE_UNAVAILABLE` naming the minimum plan
otherwise; a throw from `hasFeature`/`getMinimumPlanForFeature` (unknown
plan or feature) is caught and answered with 500 `SERVER_ERROR`. -/
def featureCheckMiddleware (feature : String) (billingPlan : String) :
    Option ErrResp :=
  match hasFeature billingPlan feature with
  | .error _ => some featureCheck500
  | .ok true => none
  | .ok false =>
    match getMinimumPlanForFeature feature with
    | .error _ => some featureCheck500
    | .ok minimumPlan => some (featureUnavailableErr minimumPlan)

/-- The 403 body for missing scopes, listing the endpoint's requirements. -/
def insufficientPermissionsErr (requiredScopes : List String) : ErrResp :=
  { status := 403,
    body := .typed "INSUFFICIENT_PERMISSIONS"
      ("This operation requires the following scopes: " ++
        jsJoin ", " requiredScopes) none }

/-- `scopeCheckMiddleware(endpoint)`: passes when the token holds every
required scope of the endpoint, else 403 `INSUFFICIENT_PERMISSIONS`. -/
def scopeCheckMiddleware (endpoint : String) (tokenScopes : List String) :
    Option ErrResp :=
  if hasRequiredScopesForEndpoint tokenScopes endpoint then none
  else some (insufficientPermissionsErr ((ENDPOINT_SCOPES.lookup endpoint).getD []))

/-- The confirmation-header test the source writes twice (in
`confirmDestructiveOperationMiddleware` and again inside the
update-records handler): the header must be truthy and its lowercase form
must equal `true` (`!confirmation || confirmation.toLowerCase() !== 'true'`
negated). -/
def confirmHeaderTruthy : Option String → Bool
  | none => false
  | some s => s ≠ "" && jsToLower s == "true"

/-- The 400 body of the generic destructive-confirmation middleware. -/
def confirmErr : ErrResp :=
  { status := 400,
    body := .typed "CONFIRMATION_REQUIRED"
      "This is a destructive operation. Please confirm by setting the X-Confirm-Destructive-Operation header to \"true\"." none }

/-- `confirmDestructiveOperationMiddleware`: passes only when the
`x-confirm-destructive-operation` header's lowercase form is `true`. -/
def confirmDestructiveOperationMiddleware (req : Request) : Option ErrResp :=
  if confirmHeaderTruthy req.xConfirmDestructive then none else some confirmErr

/-! ## Rate limiting

The two limiter middlewares are instances of the third-party
`express-rate-limit` library configured by `RateLimitModel`
(`windowMs: 1000, max: 5` and `windowMs: 1000, max: 50`); the library
itself is not part of the repository. -/

/-- One fixed-window counter: the window's start time and the number of
requests admitted in it. -/
structure Bucket where
  windowStart : Nat
  count : Nat
deriving DecidableEq, Repr

/-- The per-key buckets of one limiter instance. -/
abbrev LimiterState := List (String × Bucket)

/-- Insert-or-replace one key's bucket. -/
def upsertBucket (st : LimiterState) (key : String) (b : Bucket) : LimiterState :=
  match st with
  | [] => [(key, b)]
  | (k, b') :: rest =>
    if k = key then (k, b) :: rest else (k, b') :: upsertBucket rest key b

/-- Modelled from the spec: the `tryAcquire(key, limit, windowDuration)`
fixed-window counter of section 4.2 — the `express-rate-limit` internals
are not in the repository.  A key's window starts at its first observed
request and resets every `windowMs`; the count increments on every
`Allowed` decision; once `count >= limit` inside the window the decision
is `Denied` (state untouched) until rollover. -/
def tryAcquire (st : LimiterState) (key : String) (limit windowMs now : Nat) :
    LimiterState × Bool :=
  match st.lookup key with
  | none => (upsertBucket st key { windowStart := now, count := 1 }, true)
  | some b =>
    if b.windowStart + windowMs ≤ now then
      (upsertBucket st key { windowStart := now, count := 1 }, true)
    else if limit ≤ b.count then (st, false)
    else (upsertBucket st key { b with count := b.count + 1 }, true)

/-- The body the base (5/sec) limiter sends on denial: the flat
`{ error, message }` object of `RateLimitModel.configureRateLimiter`. -/
def rateLimitErr : ErrResp :=
  { status := 429,
    body := .flat "RATE_LIMIT_REACHED"
      "Rate limit exceeded. Please try again later." }

/-- The body the user (50/sec) limiter sends on denial, from
`RateLimitModel.configureUserRateLimiter`. -/
def userRateLimitErr : ErrResp :=
  { status := 429,
    body := .flat "USER_RATE_LIMIT_REACHED"
      "User rate limit exceeded. Please try again later." }

/-- The shared mutable state of the server: the bucket stores of the two
module-level middleware instances `baseRateLimitMiddleware` and
`userRateLimitMiddleware`.  Both key by the client (the library's default
keying), modelled here by `Request.ip`. -/
structure ServerState where
  base : LimiterState
  user : LimiterState
deriving DecidableEq, Repr

/-- `baseRateLimitMiddleware` (5 requests / 1s window). -/
def baseRateLimitMiddleware (st : LimiterState) (req : Request) (now : Nat) :
    LimiterState × Option ErrResp :=
  let r := tryAcquire st req.ip 5 1000 now
  (r.1, if r.2 then none else some rateLimitErr)

/-- `userRateLimitMiddleware` (50 requests / 1s window). -/
def userRateLimitMiddleware (st : LimiterState) (req : Request) (now : Nat) :
    LimiterState × Option ErrResp :=
  let r := tryAcquire st req.ip 50 1000 now
  (r.1, if r.2 then none else some userRateLimitErr)

/-! ## Route handlers and route chains -/

/-- The argument tuples with which a handler invokes the Upstream Client
(an `AirtableProvider` method).  An outcome containing one of these means
the upstream was reached. -/
inductive UpstreamCall where
  | getBases (token : String)
  | createRecords (token baseId tableIdOrName : String) (records : JsonVal)
  | updateRecords (token baseId tableIdOrName : String) (n : Nat)
      (destructive : Bool)
  | deleteRecords (token baseId tableIdOrName : String) (recordIds : List String)
  | deleteWebhook (token baseId webhookId : String)
deriving DecidableEq, Repr

/-- The terminal outcome of one route execution: a rejection (some stage or
handler validation sent an error response) or an invocation of the
Upstream Client. -/
inductive Outcome where
  | rejected (e : ErrResp)
  | invoked (c : UpstreamCall)
deriving DecidableEq, Repr

/-- A 400 `INVALID_REQUEST` body with the given message. -/
def invalidRequestErr (message : String) : ErrResp :=
  { status := 400, body := .typed "INVALID_REQUEST" message none }

/-- The 400 body of the update-records handler's own destructive check. -/
def confirmUpdateErr : ErrResp :=
  { status := 400,
    body := .typed "CONFIRMATION_REQUIRED"
      "This is a destructive update (PUT) that will clear all unincluded cell values. Please confirm by setting the X-Confirm-Destructive-Operation header to \"true\"." none }

/-- The handler body of `basesController.getBases`: no validation, calls
`airtableProvider.getBases()`. -/
def getBasesHandler (req : Request) (p : Principal) : Outcome :=
  let _ := req
  .invoked (.getBases p.token)

/-- The handler body of `recordsController.createRecords`: requires truthy
`baseId`/`tableIdOrName`, a truthy `records` value that is not an empty
array, and rejects an array of more than 10 records before calling
`airtableProvider.createRecords`. -/
def createRecordsHandler (req : Request) (p : Principal) : Outcome :=
  if ¬ (jsTruthy req.baseId ∧ jsTruthy req.tableIdOrName) then
    .rejected (invalidRequestErr "Base ID and Table ID/Name are required")
  else if req.bodyRecords = none ∨ req.bodyRecords = some (.arr 0) then
    .rejected (invalidRequestErr "Records are required")
  else
    match req.bodyRecords with
    | some (.arr n) =>
      if 10 < n then
        .rejected (invalidRequestErr
          "Maximum of 10 records can be created in a single request")
      else
        .invoked (.createRecords p.token (req.baseId.getD "")
          (req.tableIdOrName.getD "") (.arr n))
    | some .notArr =>
      .invoked (.createRecords p.token (req.baseId.getD "")
        (req.tableIdOrName.getD "") .notArr)
    | none => .rejected (invalidRequestErr "Records are required")

/-- The handler body of `recordsController.updateRecords`: param check,
`records` must be a non-empty array, at most 10 records, then — after the
batch check — the in-handler destructive confirmation (the second
occurrence of the header test), then `airtableProvider.updateRecords`. -/
def updateRecordsHandler (req : Request) (p : Principal) : Outcome :=
  if ¬ (jsTruthy req.baseId ∧ jsTruthy req.tableIdOrName) then
    .rejected (invalidRequestErr "Base ID and Table ID/Name are required")
  else
    match req.bodyRecords with
    | some (.arr n) =>
      if n = 0 then .rejected (invalidRequestErr "Records array is required")
      else if 10 < n then
        .rejected (invalidRequestErr
          "Maximum of 10 records can be updated in a single request")
      else if req.bodyDestructive ∧ ¬ confirmHeaderTruthy req.xConfirmDestructive
      then .rejected confirmUpdateErr
      else
        .invoked (.updateRecords p.token (req.baseId.getD "")
          (req.tableIdOrName.getD "") n req.bodyDestructive)
    | _ => .rejected (invalidRequestErr "Records array is required")

/-- The handler body of `recordsController.deleteRecords`: param check, the
`records` query value parsed (array kept, string split on commas and
trimmed, anything else rejected), at most 10 ids, then
`airtableProvider.deleteRecords`. -/
def deleteRecordsHandler (req : Request) (p : Principal) : Outcome :=
  if ¬ (jsTruthy req.baseId ∧ jsTruthy req.tableIdOrName) then
    .rejected (invalidRequestErr "Base ID and Table ID/Name are required")
  else
    match req.queryRecords with
    | none => .rejected (invalidRequestErr "Record IDs are required")
    | some qv =>
      match qv with
      | .list xs =>
        if 10 < xs.length then
          .rejected (invalidRequestErr
            "Maximum of 10 records can be deleted in a single request")
        else
          .invoked (.deleteRecords p.token (req.baseId.getD "")
            (req.tableIdOrName.getD "") xs)
      | .str s =>
        let ids := (jsSplit ',' s).map jsTrim
        if 10 < ids.length then
          .rejected (invalidRequestErr
            "Maximum of 10 records can be deleted in a single request")
        else
          .invoked (.deleteRecords p.token (req.baseId.getD "")
            (req.tableIdOrName.getD "") ids)
      | .other => .rejected (invalidRequestErr "Invalid record IDs format")

/-- The handler body of `webhookController.deleteWebhook`: param check, then
`airtableProvider.deleteWebhook`. -/
def deleteWebhookHandler (req : Request) (p : Principal) : Outcome :=
  if ¬ (jsTruthy req.baseId ∧ jsTruthy req.webhookId) then
    .rejected (invalidRequestErr "Base ID and Webhook ID are required")
  else
    .invoked (.deleteWebhook p.token (req.baseId.getD "") (req.webhookId.getD ""))

/-- Express middleware chaining for an ordinary stage: a `some` error
response short-circuits (the response is sent and `next()` is not
called); `none` passes control on.  `st` is the server state at the
moment of the rejection. -/
def stageThen (st : ServerState) (r : Option ErrResp)
    (next : Unit -> ServerState × Outcome) : ServerState × Outcome :=
  match r with
  | some e => (st, .rejected e)
  | none => next ()

/-- Express middleware chaining for `authMiddleware`, which on success
passes the attached principal on to the rest of the chain. -/
def authThen (st : ServerState) (r : Except ErrResp Principal)
    (next : Principal -> ServerState × Outcome) : ServerState × Outcome :=
  match r with
  | .error e => (st, .rejected e)
  | .ok p => next p

/-- `basesController.getBases`'s middleware array: auth, feature
`base_data`, scope `getBases`, user rate limit, handler.  An early
rejection short-circuits (`next()` is not called), so later middlewares
never run. -/
def getBasesRoute (st : ServerState) (req : Request) (now : Nat) :
    ServerState × Outcome :=
  authThen st (authMiddleware req) fun p =>
    stageThen st (featureCheckMiddleware "base_data" p.billingPlan) fun _ =>
      stageThen st (scopeCheckMiddleware "getBases" p.tokenScopes) fun _ =>
        let r := userRateLimitMiddleware st.user req now
        stageThen { st with user := r.1 } r.2 fun _ =>
          ({ st with user := r.1 }, getBasesHandler req p)

/-- `recordsController.createRecords`'s middleware array: auth, feature
`base_data`, scope `createRecords`, base rate limit, handler. -/
def createRecordsRoute (st : ServerState) (req : Request) (now : Nat) :
    ServerState × Outcome :=
  authThen st (authMiddleware req) fun p =>
    stageThen st (featureCheckMiddleware "base_data" p.billingPlan) fun _ =>
      stageThen st (scopeCheckMiddleware "createRecords" p.tokenScopes) fun _ =>
        let r := baseRateLimitMiddleware st.base req now
        stageThen { st with base := r.1 } r.2 fun _ =>
          ({ st with base := r.1 }, createRecordsHandler req p)

/-- `recordsController.updateRecords`'s middleware array: auth, feature
`base_data`, scope `updateRecords`, base rate limit, handler.  Note the
destructive-confirmation check is inside the handler, after the rate
limiter. -/
def updateRecordsRoute (st : ServerState) (req : Request) (now : Nat) :
    ServerState × Outcome :=
  authThen st (authMiddleware req) fun p =>
    stageThen st (featureCheckMiddleware "base_data" p.billingPlan) fun _ =>
      stageThen st (scopeCheckMiddleware "updateRecords" p.tokenScopes) fun _ =>
        let r := baseRateLimitMiddleware st.base req now
        stageThen { st with base := r.1 } r.2 fun _ =>
          ({ st with base := r.1 }, updateRecordsHandler req p)

/-- `recordsController.deleteRecords`'s middleware array: auth, feature
`base_data`, scope `deleteRecords`, destructive confirmation, base rate
limit, handler. -/
def deleteRecordsRoute (st : ServerState) (req : Request) (now : Nat) :
    ServerState × Outcome :=
  authThen st (authMiddleware req) fun p =>
    stageThen st (featureCheckMiddleware "base_data" p.billingPlan) fun _ =>
      stageThen st (scopeCheckMiddleware "deleteRecords" p.tokenScopes) fun _ =>
        stageThen st (confirmDestructiveOperationMiddleware req) fun _ =>
          let r := baseRateLimitMiddleware st.base req now
          stageThen { st with base := r.1 } r.2 fun _ =>
            ({ st with base := r.1 }, deleteRecordsHandler req p)

/-- `webhookController.deleteWebhook`'s middleware array: auth, feature
`webhooks`, scope `deleteWebhook`, destructive confirmation, base rate
limit, handler. -/
def deleteWebhookRoute (st : ServerState) (req : Request) (now : Nat) :
    ServerState × Outcome :=
  authThen st (authMiddleware req) fun p =>
    stageThen st (featureCheckMiddleware "webhooks" p.billingPlan) fun _ =>
      stageThen st (scopeCheckMiddleware "deleteWebhook" p.tokenScopes) fun _ =>
        stageThen st (confirmDestructiveOperationMiddleware req) fun _ =>
          let r := baseRateLimitMiddleware st.base req now
          stageThen { st with base := r.1 } r.2 fun _ =>
            ({ st with base := r.1 }, deleteWebhookHandler req p)


/-! ## The Upstream Invoker's 429-retry interceptor -/

/-- One response of the upstream API as the interceptor classifies it:
`overload` is HTTP 429; `failure` is any other error response (status,
Airtable error type and message); `success` resolves normally. -/
inductive UpstreamResp where
  | overload
  | failure (status : Nat) (type message : String)
  | success (data : String)
deriving DecidableEq, Repr

/-- The cooldown the interceptor sleeps before each retry (milliseconds). -/
def COOLDOWN_MS : Nat := 30000

/-- The `AirtableProvider` response interceptor: on a 429 it waits 30
seconds and re-issues the request through the same axios instance —
which re-enters this same interceptor, so every further 429 is retried
again.  The argument lists the successive responses a stub upstream would
give; the result is the first non-overload response paired with the
number of retries (equally, 30-second waits) performed before it, or
`none` when every listed response was an overload (the code is still
retrying; it has not surfaced any failure). -/
def interceptRetry : List UpstreamResp → Option (UpstreamResp × Nat)
  | [] => none
  | .overload :: rest =>
    (interceptRetry rest).map (fun r => (r.1, r.2 + 1))
  | r :: _ => some (r, 0)

/-- The error object `AirtableProvider._handleError` throws for an upstream
error response: `status` from the response, `type` from the Airtable
error data (possibly absent), `message` from the error data with default
`Airtable API error`. -/
structure EnhancedError where
  status : Option Nat
  type : Option String
  message : String
  details : Option String
deriving DecidableEq, Repr

/-- `AirtableProvider._handleError` on an upstream error response carrying
`status` and error data `{ type?, message? }`. -/
def enhanceUpstreamError (status : Nat) (type : Option String)
    (message : Option String) : EnhancedError :=
  { status := some status,
    type := type,
    message := if jsTruthy message then message.getD "" else "Airtable API error",
    details := some "errorData" }

/-- JavaScript truthiness of an optional numeric field (`0` is falsy). -/
def jsTruthyNat : Option Nat → Bool
  | none => false
  | some n => n ≠ 0

/-- `handleErrorResponse`: when the caught error has truthy `status` and
`type`, pass both through together with the message and details;
otherwise send 500 `SERVER_ERROR` with the error's message or a default. -/
def handleErrorResponse (e : EnhancedError) : ErrResp :=
  if jsTruthyNat e.status ∧ jsTruthy e.type then
    { status := e.status.getD 0,
      body := .typed (e.type.getD "") e.message e.details }
  else
    { status := 500,
      body := .typed "SERVER_ERROR"
        (if e.message = "" then "An unexpected error occurred" else e.message)
        none }

/-- Following the spec's words (section 7, for the refinement comparison of
claim C6): the taxonomy kinds, in the spec's spelling and in every
SCREAMING_SNAKE rendering the server's own code uses for them. -/
def taxonomyKinds : List String :=
  [ "Unauthenticated", "FeatureUnavailable", "InsufficientPermissions",
    "ConfirmationRequired", "InvalidRequest", "RateLimited", "UpstreamError",
    "ConfigurationError",
    "UNAUTHENTICATED", "FEATURE_UNAVAILABLE", "INSUFFICIENT_PERMISSIONS",
    "CONFIRMATION_REQUIRED", "INVALID_REQUEST", "RATE_LIMITED",
    "RATE_LIMIT_REACHED", "USER_RATE_LIMIT_REACHED", "UPSTREAM_ERROR",
    "CONFIGURATION_ERROR", "SERVER_ERROR", "NOT_FOUND" ]

/-! ## Stage predicates (for stating the claims) -/

/-- The principal `authMiddleware` attaches, when it passes. -/
def principalOf (req : Request) : Option Principal :=
  (authMiddleware req).toOption

/-- Whether the authenticate stage passes. -/
def authOk (req : Request) : Bool :=
  (principalOf req).isSome

/-- Whether the feature (entitlement) stage passes for a given feature. -/
def featureOkOn (feature : String) (req : Request) : Bool :=
  match principalOf req with
  | some p => (featureCheckMiddleware feature p.billingPlan).isNone
  | none => false

/-- Whether the scope stage passes for a given endpoint. -/
def scopeOkOn (endpoint : String) (req : Request) : Bool :=
  match principalOf req with
  | some p => (scopeCheckMiddleware endpoint p.tokenScopes).isNone
  | none => false

/-- Whether the four pre-admission stages of the delete-records route
(authenticate, feature `base_data`, scope `deleteRecords`, destructive
confirmation) all pass. -/
def preAdmissionDeleteRecords (req : Request) : Bool :=
  authOk req && featureOkOn "base_data" req && scopeOkOn "deleteRecords" req
    && confirmHeaderTruthy req.xConfirmDestructive

/-- Whether the four pre-admission stages of the delete-webhook route
(authenticate, feature `webhooks`, scope `deleteWebhook`, destructive
confirmation) all pass. -/
def preAdmissionDeleteWebhook (req : Request) : Bool :=
  authOk req && featureOkOn "webhooks" req && scopeOkOn "deleteWebhook" req
    && confirmHeaderTruthy req.xConfirmDestructive

/-- Whether the three middleware stages of the create-records route pass. -/
def preAdmissionCreateRecords (req : Request) : Bool :=
  authOk req && featureOkOn "base_data" req && scopeOkOn "createRecords" req

/-- Whether the three middleware stages of the update-records route pass. -/
def preAdmissionUpdateRecords (req : Request) : Bool :=
  authOk req && featureOkOn "base_data" req && scopeOkOn "updateRecords" req

/-- Whether the three middleware stages of the get-bases route pass. -/
def preAdmissionGetBases (req : Request) : Bool :=
  authOk req && featureOkOn "base_data" req && scopeOkOn "getBases" req

/-- Whether the base (5/sec) limiter admits this request in this state. -/
def baseAdmits (st : ServerState) (req : Request) (now : Nat) : Bool :=
  (tryAcquire st.base req.ip 5 1000 now).2

/-- Whether the user (50/sec) limiter admits this request in this state. -/
def userAdmits (st : ServerState) (req : Request) (now : Nat) : Bool :=
  (tryAcquire st.user req.ip 50 1000 now).2

/-! ## Sample requests used by witnesses and counterexamples -/

/-- A fully passing delete-records request: bearer token, write scope,
confirmation header set, params present, one record id. -/
def reqDeleteOk : Request :=
  { authorization := some "Bearer tok123", xBillingPlan := none,
    xTokenScopes := some "data.records:write", xConfirmDestructive := some "true",
    ip := "1.2.3.4", baseId := some "app1", tableIdOrName := some "tbl1",
    webhookId := none, bodyRecords := none, bodyDestructive := false,
    queryRecords := some (.list ["r1"]) }

/-- A destructive (PUT-style) update request with no confirmation header but
everything else in order. -/
def reqUpdUnconfirmed : Request :=
  { authorization := some "Bearer tok123", xBillingPlan := none,
    xTokenScopes := some "data.records:write", xConfirmDestructive := none,
    ip := "1.2.3.4", baseId := some "app1", tableIdOrName := some "tbl1",
    webhookId := none, bodyRecords := some (.arr 1), bodyDestructive := true,
    queryRecords := none }

/-- A request with no authorization header at all, but which would fail the
scope, confirmation and (given a full bucket) rate-limit stages too. -/
def reqNoAuth : Request :=
  { authorization := none, xBillingPlan := none,
    xTokenScopes := some "data.records:read", xConfirmDestructive := none,
    ip := "1.2.3.4", baseId := some "app1", tableIdOrName := some "tbl1",
    webhookId := none, bodyRecords := none, bodyDestructive := true,
    queryRecords := some (.list ["r1"]) }

/-- A passing get-bases request (schema read scope). -/
def reqGetBases : Request :=
  { authorization := some "Bearer tok123", xBillingPlan := none,
    xTokenScopes := some "schema.bases:read", xConfirmDestructive := none,
    ip := "1.2.3.4", baseId := none, tableIdOrName := none,
    webhookId := none, bodyRecords := none, bodyDestructive := false,
    queryRecords := none }

/-- The empty server state: no bucket has seen a request. -/
def initState : ServerState := ⟨[], []⟩

/-! ## Helper lemmas -/

/-- `List.find?` returning `a` splits the list into a prefix on which the
predicate is false, then `a` satisfying it. -/
theorem find?_split {α : Type} {p : α → Bool} {l : List α} {a : α}
    (h : l.find? p = some a) :
    ∃ l1 l2, l = l1 ++ a :: l2 ∧ (∀ x ∈ l1, p x = false) ∧ p a = true := by
  induction l with
  | nil => simp [List.find?] at h
  | cons b bs ih =>
    by_cases hb : p b
    · rw [List.find?_cons_of_pos _ hb] at h
      refine ⟨[], bs, ?_, ?_, ?_⟩ <;> simp_all
    · rw [List.find?_cons_of_neg _ hb] at h
      obtain ⟨l1, l2, hl, hfalse, hp⟩ := ih h
      exact ⟨b :: l1, l2, by simp [hl], by simpa [hb] using hfalse, hp⟩

/-- The confirmation middleware passes exactly when the header test does. -/
theorem confirmMw_eq_none (req : Request) :
    confirmDestructiveOperationMiddleware req = none ↔
      confirmHeaderTruthy req.xConfirmDestructive = true := by
  unfold confirmDestructiveOperationMiddleware
  split <;> simp_all

/-- The scope middleware passes exactly when the scope test does. -/
theorem scopeMw_eq_none (endpoint : String) (scopes : List String) :
    scopeCheckMiddleware endpoint scopes = none ↔
      hasRequiredScopesForEndpoint scopes endpoint = true := by
  unfold scopeCheckMiddleware
  split <;> simp_all

/-- A delete-records request whose confirmation header is uppercase `TRUE`. -/
def reqConfirmUpper : Request :=
  { reqDeleteOk with xConfirmDestructive := some "TRUE" }

/-! ## C7: plan-capability lookup assumes no total order of tiers -/

/-- C7: in any plan-feature table, `hasFeature` answers `false` for a tier
whose own capability list lacks the capability, even when another tier
grants it — no tier ordering or capability inheritance is assumed — and
`getMinimumPlanForFeature` returns the first plan in table-scan order
granting the feature: every plan before it in the table does not grant
it. -/
theorem planCapabilityLookup_no_total_order :
    (∀ (tbl : List (String × List String)) (B C X : String)
        (featsB featsC : List String),
      tbl.lookup B = some featsB → featsB.contains X = true →
      tbl.lookup C = some featsC → featsC.contains X = false →
      hasFeatureIn tbl C X = .ok false)
    ∧ (∀ feature plan, getMinimumPlanForFeature feature = .ok plan →
        ∃ l1 l2 feats, PLAN_FEATURES = l1 ++ (plan, feats) :: l2 ∧
          feats.contains feature = true ∧
          ∀ e ∈ l1, e.2.contains feature = false) := by
  constructor
  · intro tbl B C X featsB featsC _ _ hC hX
    unfold hasFeatureIn
    rw [hC]
    exact congrArg Except.ok hX
  · intro feature plan h
    unfold getMinimumPlanForFeature getMinimumPlanForFeatureIn at h
    cases hf : PLAN_FEATURES.find? (fun e => e.2.contains feature) with
    | none => rw [hf] at h; exact absurd h (by simp)
    | some e =>
      rw [hf] at h
      obtain ⟨l1, l2, hl, hfalse, hp⟩ := find?_split hf
      have he : e.1 = plan := by injection h
      refine ⟨l1, l2, e.2, ?_, hp, hfalse⟩
      rw [← he]
      simpa using hl

/-- Witness for C7 at concrete inputs: in a two-tier table where `b` grants
`x` and `c` does not, the lookup answers `false` for `c`; and the minimum
plan for `scim_user_management` is `business`, with neither table entry
before it granting that feature. -/
theorem planCapabilityLookup_no_total_order_witness :
    hasFeatureIn [("b", ["x"]), ("c", [])] "c" "x" = .ok false ∧
    ∃ l1 l2 feats, PLAN_FEATURES = l1 ++ ("business", feats) :: l2 ∧
      feats.contains "scim_user_management" = true ∧
      ∀ e ∈ l1, e.2.contains "scim_user_management" = false :=
  ⟨planCapabilityLookup_no_total_order.1 [("b", ["x"]), ("c", [])] "b" "c" "x"
      ["x"] [] (by decide) (by decide) (by decide) (by decide),
   planCapabilityLookup_no_total_order.2 "scim_user_management" "business"
      (by decide)⟩

/-! ## C8: behaviour of the policy lookups on unknown keys -/

/-- C8 counterexample: an operation name absent from `ENDPOINT_SCOPES` is
not rejected with any configuration error — the lookup defaults to an
empty requirement (`|| []`) and the scope check silently passes even for a
token holding no scopes at all. -/
theorem unknownOperation_silently_passes :
    hasRequiredScopesForEndpoint [] "frobnicateWidgets" = true ∧
    scopeCheckMiddleware "frobnicateWidgets" [] = none := by
  decide

/-- C8 amended: the plan-table lookups do fail loudly on unknown keys —
`hasFeature` throws `Unknown billing plan` for a plan absent from the
table and `getMinimumPlanForFeature` throws `Unknown feature` when no
plan grants the feature — but the endpoint-scope lookup defaults an
unknown operation name to an empty scope requirement and silently
succeeds for any token. -/
theorem policyLookups_unknown_key_behaviour :
    (∀ plan feature, PLAN_FEATURES.lookup plan = none →
      hasFeature plan feature = .error ("Unknown billing plan: " ++ plan))
    ∧ (∀ feature, PLAN_FEATURES.find? (fun e => e.2.contains feature) = none →
      getMinimumPlanForFeature feature = .error ("Unknown feature: " ++ feature))
    ∧ (∀ scopes endpoint, ENDPOINT_SCOPES.lookup endpoint = none →
      hasRequiredScopesForEndpoint scopes endpoint = true) := by
  refine ⟨?_, ?_, ?_⟩
  · intro plan feature h
    unfold hasFeature hasFeatureIn
    rw [h]
  · intro feature h
    unfold getMinimumPlanForFeature getMinimumPlanForFeatureIn
    rw [h]
  · intro scopes endpoint h
    unfold hasRequiredScopesForEndpoint
    rw [h]
    rfl

/-- Witness for C8's amended statement at concrete inputs. -/
theorem policyLookups_unknown_key_witness :
    hasFeature "gold" "base_data" = .error "Unknown billing plan: gold" ∧
    getMinimumPlanForFeature "time_travel" = .error "Unknown feature: time_travel" ∧
    hasRequiredScopesForEndpoint ["data.records:read"] "mysteryOp" = true :=
  ⟨policyLookups_unknown_key_behaviour.1 "gold" "base_data" (by decide),
   policyLookups_unknown_key_behaviour.2.1 "time_travel" (by decide),
   policyLookups_unknown_key_behaviour.2.2 ["data.records:read"] "mysteryOp"
     (by decide)⟩

/-! ## C10: the confirmation header is compared case-insensitively -/

/-- C10: the destructive-confirmation middleware passes exactly when the
`x-confirm-destructive-operation` header is present and its lowercase
form is the string `true`; an absent header rejects with the
`CONFIRMATION_REQUIRED` error, and every outcome of the middleware is
either a pass or that error. -/
theorem confirmationHeader_case_insensitive :
    (∀ req s, req.xConfirmDestructive = some s →
      (confirmDestructiveOperationMiddleware req = none ↔ jsToLower s = "true"))
    ∧ (∀ req, req.xConfirmDestructive = none →
        confirmDestructiveOperationMiddleware req = some confirmErr)
    ∧ (∀ req, confirmDestructiveOperationMiddleware req = none ∨
        confirmDestructiveOperationMiddleware req = some confirmErr) := by
  refine ⟨?_, ?_, ?_⟩
  · intro req s h
    rw [confirmMw_eq_none, h]
    simp only [confirmHeaderTruthy, Bool.and_eq_true, beq_iff_eq, ne_eq,
      decide_eq_true_eq]
    constructor
    · rintro ⟨_, h2⟩; exact h2
    · intro h2
      refine ⟨?_, h2⟩
      intro hs
      rw [hs] at h2
      exact absurd h2 (by decide)
  · intro req h
    simp [confirmDestructiveOperationMiddleware, confirmHeaderTruthy, h]
  · intro req
    unfold confirmDestructiveOperationMiddleware
    split <;> simp

/-- Witness for C10: the uppercase header `TRUE` passes the middleware; an
absent header is rejected with `CONFIRMATION_REQUIRED`. -/
theorem confirmationHeader_case_insensitive_witness :
    confirmDestructiveOperationMiddleware reqConfirmUpper = none ∧
    confirmDestructiveOperationMiddleware reqNoAuth = some confirmErr :=
  ⟨(confirmationHeader_case_insensitive.1 reqConfirmUpper "TRUE" rfl).mpr
      (by decide),
   confirmationHeader_case_insensitive.2.1 reqNoAuth rfl⟩

/-! ## C4: the 429-retry interceptor -/

/-- C4 counterexample: an upstream stub that answers overload, overload,
success makes the interceptor retry a second time and return the success
— the claim's "an upstream that always returns overload yields an
UpstreamError after exactly one retry, never a second retry" is false:
after one retry meets a second overload the code retries again rather
than surfacing any error, and after three straight overloads it still has
surfaced nothing. -/
theorem overloadRetry_counterexample :
    interceptRetry [.overload, .overload, .success "ok"] =
      some (.success "ok", 2) ∧
    interceptRetry [.overload, .overload, .overload] = none := by
  decide

/-- C4 amended: the interceptor re-issues the request through the same
axios instance, re-entering itself, so overload responses are retried
without bound: `n` leading overloads followed by any non-overload
response yield that response after exactly `n` retries (each preceded by
the 30-second cooldown) — in particular a non-overload failure is
returned with no retry at all — and a stub answering only overloads never
surfaces any failure. -/
theorem overloadRetry_unbounded :
    (∀ n, interceptRetry (List.replicate n .overload) = none)
    ∧ (∀ n (r : UpstreamResp) rest, r ≠ .overload →
        interceptRetry (List.replicate n .overload ++ r :: rest) =
          some (r, n)) := by
  constructor
  · intro n
    induction n with
    | zero => rfl
    | succ k ih => simp [List.replicate_succ, interceptRetry, ih]
  · intro n r rest hr
    induction n with
    | zero =>
      cases r with
      | overload => exact absurd rfl hr
      | failure s t m => rfl
      | success d => rfl
    | succ k ih => simp [List.replicate_succ, interceptRetry, ih]

/-- Witness for C4's amended statement: a 404 failure is returned with zero
retries, and an overload-then-success stub succeeds after one retry. -/
theorem overloadRetry_unbounded_witness :
    interceptRetry [.failure 404 "NOT_FOUND" "nope"] =
      some (.failure 404 "NOT_FOUND" "nope", 0) ∧
    interceptRetry [.overload, .success "ok"] = some (.success "ok", 1) :=
  ⟨overloadRetry_unbounded.2 0 (.failure 404 "NOT_FOUND" "nope") [] (by decide),
   overloadRetry_unbounded.2 1 (.success "ok") [] (by decide)⟩

/-! ## Route-level helper lemmas -/

/-- A denied `tryAcquire` leaves the limiter state untouched. -/
theorem tryAcquire_denied (st : LimiterState) (key : String)
    (limit windowMs now : Nat) :
    (tryAcquire st key limit windowMs now).2 = false →
    (tryAcquire st key limit windowMs now).1 = st := by
  unfold tryAcquire
  split
  · intro h; simp at h
  · split
    · intro h; simp at h
    · split
      · intro _; rfl
      · intro h; simp at h

/-- Every rejection of `authMiddleware` carries the one 401 body. -/
theorem authMiddleware_error_unique {req : Request} {e : ErrResp}
    (h : authMiddleware req = .error e) : e = authErr := by
  unfold authMiddleware at h
  split at h
  · injection h with h; exact h.symm
  · split at h
    · injection h with h; exact h.symm
    · split at h
      · injection h with h; exact h.symm
      · split at h
        · injection h with h; exact h.symm
        · exact absurd h (by simp)

/-- A delete-records request failing any of the four pre-admission stages is
rejected with the server state untouched. -/
theorem deleteRecordsRoute_early (st : ServerState) (req : Request) (now : Nat)
    (h : preAdmissionDeleteRecords req = false) :
    ∃ e, deleteRecordsRoute st req now = (st, .rejected e) := by
  cases ha : authMiddleware req with
  | error e =>
    exact ⟨e, by simp [deleteRecordsRoute, authThen, ha]⟩
  | ok p =>
    cases hf : featureCheckMiddleware "base_data" p.billingPlan with
    | some e =>
      exact ⟨e, by simp [deleteRecordsRoute, authThen, stageThen, ha, hf]⟩
    | none =>
      cases hs : scopeCheckMiddleware "deleteRecords" p.tokenScopes with
      | some e =>
        exact ⟨e, by simp [deleteRecordsRoute, authThen, stageThen, ha, hf, hs]⟩
      | none =>
        cases hc : confirmDestructiveOperationMiddleware req with
        | some e =>
          exact ⟨e, by simp [deleteRecordsRoute, authThen, stageThen, ha, hf, hs, hc]⟩
        | none =>
          exfalso
          have h1 := (confirmMw_eq_none req).mp hc
          simp [preAdmissionDeleteRecords, authOk, featureOkOn, scopeOkOn,
            principalOf, Except.toOption, ha, hf, hs, h1] at h

/-- A delete-webhook request failing any of the four pre-admission stages is
rejected with the server state untouched. -/
theorem deleteWebhookRoute_early (st : ServerState) (req : Request) (now : Nat)
    (h : preAdmissionDeleteWebhook req = false) :
    ∃ e, deleteWebhookRoute st req now = (st, .rejected e) := by
  cases ha : authMiddleware req with
  | error e =>
    exact ⟨e, by simp [deleteWebhookRoute, authThen, ha]⟩
  | ok p =>
    cases hf : featureCheckMiddleware "webhooks" p.billingPlan with
    | some e =>
      exact ⟨e, by simp [deleteWebhookRoute, authThen, stageThen, ha, hf]⟩
    | none =>
      cases hs : scopeCheckMiddleware "deleteWebhook" p.tokenScopes with
      | some e =>
        exact ⟨e, by simp [deleteWebhookRoute, authThen, stageThen, ha, hf, hs]⟩
      | none =>
        cases hc : confirmDestructiveOperationMiddleware req with
        | some e =>
          exact ⟨e, by simp [deleteWebhookRoute, authThen, stageThen, ha, hf, hs, hc]⟩
        | none =>
          exfalso
          have h1 := (confirmMw_eq_none req).mp hc
          simp [preAdmissionDeleteWebhook, authOk, featureOkOn, scopeOkOn,
            principalOf, Except.toOption, ha, hf, hs, h1] at h

/-- An update-records request failing any of its three middleware stages is
rejected with the server state untouched. -/
theorem updateRecordsRoute_early (st : ServerState) (req : Request) (now : Nat)
    (h : preAdmissionUpdateRecords req = false) :
    ∃ e, updateRecordsRoute st req now = (st, .rejected e) := by
  cases ha : authMiddleware req with
  | error e =>
    exact ⟨e, by simp [updateRecordsRoute, authThen, ha]⟩
  | ok p =>
    cases hf : featureCheckMiddleware "base_data" p.billingPlan with
    | some e =>
      exact ⟨e, by simp [updateRecordsRoute, authThen, stageThen, ha, hf]⟩
    | none =>
      cases hs : scopeCheckMiddleware "updateRecords" p.tokenScopes with
      | some e =>
        exact ⟨e, by simp [updateRecordsRoute, authThen, stageThen, ha, hf, hs]⟩
      | none =>
        exfalso
        simp [preAdmissionUpdateRecords, authOk, featureOkOn, scopeOkOn,
          principalOf, Except.toOption, ha, hf, hs] at h

/-- A create-records request failing any of its three middleware stages is
rejected with the server state untouched. -/
theorem createRecordsRoute_early (st : ServerState) (req : Request) (now : Nat)
    (h : preAdmissionCreateRecords req = false) :
    ∃ e, createRecordsRoute st req now = (st, .rejected e) := by
  cases ha : authMiddleware req with
  | error e =>
    exact ⟨e, by simp [createRecordsRoute, authThen, ha]⟩
  | ok p =>
    cases hf : featureCheckMiddleware "base_data" p.billingPlan with
    | some e =>
      exact ⟨e, by simp [createRecordsRoute, authThen, stageThen, ha, hf]⟩
    | none =>
      cases hs : scopeCheckMiddleware "createRecords" p.tokenScopes with
      | some e =>
        exact ⟨e, by simp [createRecordsRoute, authThen, stageThen, ha, hf, hs]⟩
      | none =>
        exfalso
        simp [preAdmissionCreateRecords, authOk, featureOkOn, scopeOkOn,
          principalOf, Except.toOption, ha, hf, hs] at h

/-- A get-bases request failing any of its three middleware stages is
rejected with the server state untouched. -/
theorem getBasesRoute_early (st : ServerState) (req : Request) (now : Nat)
    (h : preAdmissionGetBases req = false) :
    ∃ e, getBasesRoute st req now = (st, .rejected e) := by
  cases ha : authMiddleware req with
  | error e =>
    exact ⟨e, by simp [getBasesRoute, authThen, ha]⟩
  | ok p =>
    cases hf : featureCheckMiddleware "base_data" p.billingPlan with
    | some e =>
      exact ⟨e, by simp [getBasesRoute, authThen, stageThen, ha, hf]⟩
    | none =>
      cases hs : scopeCheckMiddleware "getBases" p.tokenScopes with
      | some e =>
        exact ⟨e, by simp [getBasesRoute, authThen, stageThen, ha, hf, hs]⟩
      | none =>
        exfalso
        simp [preAdmissionGetBases, authOk, featureOkOn, scopeOkOn,
          principalOf, Except.toOption, ha, hf, hs] at h

/-- The update-records route never reaches the upstream for a destructive
request whose confirmation header does not pass the header test. -/
theorem updateRecords_unconfirmed_no_invoke (st : ServerState) (req : Request)
    (now : Nat) (hd : req.bodyDestructive = true)
    (hc : confirmHeaderTruthy req.xConfirmDestructive = false) :
    ∀ c, (updateRecordsRoute st req now).2 ≠ .invoked c := by
  intro c
  cases ha : authMiddleware req with
  | error e => simp [updateRecordsRoute, authThen, ha]
  | ok p =>
    cases hf : featureCheckMiddleware "base_data" p.billingPlan with
    | some e => simp [updateRecordsRoute, authThen, stageThen, ha, hf]
    | none =>
      cases hs : scopeCheckMiddleware "updateRecords" p.tokenScopes with
      | some e => simp [updateRecordsRoute, authThen, stageThen, ha, hf, hs]
      | none =>
        cases hr : (baseRateLimitMiddleware st.base req now).2 with
        | some e => simp [updateRecordsRoute, authThen, stageThen, ha, hf, hs, hr]
        | none =>
          have hroute : (updateRecordsRoute st req now).2 =
              updateRecordsHandler req p := by
            simp [updateRecordsRoute, authThen, stageThen, ha, hf, hs, hr]
          rw [hroute]
          unfold updateRecordsHandler
          split
          · simp
          · split
            next n =>
              split
              · simp
              · split
                · simp
                · split
                  · simp
                  next hcond =>
                    exact absurd ⟨hd, by simp [hc]⟩ hcond
            next => simp

/-! ## C1: quota non-consumption on early rejection -/

/-- C1 counterexample: a destructive update-records request with no
confirmation header, passing authentication, entitlement and scope, is
rejected with `CONFIRMATION_REQUIRED` — but only after the per-resource
rate-limit bucket has been consumed: from empty buckets the rejected
request leaves a count of 1.  The update route's confirmation check runs
inside the handler after rate-limit admission, so the claim's "rejected
with ConfirmationRequired before any rate-limit quota is consumed" is
false on this route. -/
theorem unconfirmedDestructive_consumes_quota :
    updateRecordsRoute initState reqUpdUnconfirmed 0 =
      (⟨[("1.2.3.4", ⟨0, 1⟩)], []⟩, .rejected confirmUpdateErr) := by
  decide

/-- C1 amended: a request rejected at any middleware stage leaves both
limiter buckets unchanged and never reaches the Upstream Client — this
covers Authenticate, Entitlement and Scope on all five modelled routes,
and the Destructive-confirmation middleware of the delete-records and
delete-webhook routes.  On the update-records route the
destructive-confirmation check runs inside the handler after rate-limit
admission: an unconfirmed destructive update still never touches the
Upstream Client, but it does consume rate-limit quota. -/
theorem earlyRejection_preserves_buckets :
    ∀ st req now,
      (preAdmissionDeleteRecords req = false →
        (deleteRecordsRoute st req now).1 = st ∧
        ∀ c, (deleteRecordsRoute st req now).2 ≠ .invoked c)
      ∧ (preAdmissionDeleteWebhook req = false →
        (deleteWebhookRoute st req now).1 = st ∧
        ∀ c, (deleteWebhookRoute st req now).2 ≠ .invoked c)
      ∧ (preAdmissionUpdateRecords req = false →
        (updateRecordsRoute st req now).1 = st ∧
        ∀ c, (updateRecordsRoute st req now).2 ≠ .invoked c)
      ∧ (preAdmissionCreateRecords req = false →
        (createRecordsRoute st req now).1 = st ∧
        ∀ c, (createRecordsRoute st req now).2 ≠ .invoked c)
      ∧ (preAdmissionGetBases req = false →
        (getBasesRoute st req now).1 = st ∧
        ∀ c, (getBasesRoute st req now).2 ≠ .invoked c)
      ∧ (req.bodyDestructive = true →
          confirmHeaderTruthy req.xConfirmDestructive = false →
          ∀ c, (updateRecordsRoute st req now).2 ≠ .invoked c) := by
  intro st req now
  refine ⟨?_, ?_, ?_, ?_, ?_,
    updateRecords_unconfirmed_no_invoke st req now⟩
  · intro h
    obtain ⟨e, he⟩ := deleteRecordsRoute_early st req now h
    rw [he]
    exact ⟨rfl, by simp⟩
  · intro h
    obtain ⟨e, he⟩ := deleteWebhookRoute_early st req now h
    rw [he]
    exact ⟨rfl, by simp⟩
  · intro h
    obtain ⟨e, he⟩ := updateRecordsRoute_early st req now h
    rw [he]
    exact ⟨rfl, by simp⟩
  · intro h
    obtain ⟨e, he⟩ := createRecordsRoute_early st req now h
    rw [he]
    exact ⟨rfl, by simp⟩
  · intro h
    obtain ⟨e, he⟩ := getBasesRoute_early st req now h
    rw [he]
    exact ⟨rfl, by simp⟩

/-- Witness for C1's amended statement: a delete-records request lacking
the confirmation header is rejected with the state untouched, and the
same request (destructive, unconfirmed) put through the update route
never reaches the upstream. -/
theorem earlyRejection_preserves_buckets_witness :
    (deleteRecordsRoute initState reqUpdUnconfirmed 0).1 = initState ∧
    (∀ c, (updateRecordsRoute initState reqUpdUnconfirmed 0).2 ≠ .invoked c) :=
  ⟨((earlyRejection_preserves_buckets initState reqUpdUnconfirmed 0).1
      (by decide)).1,
   (earlyRejection_preserves_buckets initState reqUpdUnconfirmed 0).2.2.2.2.2
      (by decide) (by decide)⟩

/-! ## C2: stage ordering -/

/-- The base-limiter state whose bucket for `1.2.3.4` is already full. -/
def fullBaseState : ServerState := ⟨[("1.2.3.4", ⟨0, 5⟩)], []⟩

/-- C2 counterexample: an update-records request that simultaneously fails
the destructive-confirmation stage (destructive body, no confirmation
header) and the rate-limit stage (bucket full, same window) surfaces
`RATE_LIMIT_REACHED` — not the error of the earlier-ordered confirmation
stage: on this route the confirmation check runs inside the handler after
rate-limit admission, so the spec's fixed stage order does not determine
the error. -/
theorem stageOrder_counterexample :
    updateRecordsRoute fullBaseState reqUpdUnconfirmed 500 =
      (fullBaseState, .rejected rateLimitErr) ∧
    reqUpdUnconfirmed.bodyDestructive = true ∧
    confirmHeaderTruthy reqUpdUnconfirmed.xConfirmDestructive = false := by
  decide

/-- C2 amended: on the delete-records route (all five stages deployed as
middleware in the spec's order, with delete-webhook agreeing on the
authenticate stage) the earliest failing stage's error is returned, the
rejection is terminal, the state is untouched and the upstream is never
invoked; on the update-records route the destructive-confirmation check
runs after rate-limit admission, so a request failing both surfaces the
rate-limit error instead. -/
theorem stageOrder_earliest_error_wins :
    ∀ st req now,
      (∀ e, authMiddleware req = .error e →
        deleteRecordsRoute st req now = (st, .rejected e) ∧
        deleteWebhookRoute st req now = (st, .rejected e))
      ∧ (∀ p e, authMiddleware req = .ok p →
          featureCheckMiddleware "base_data" p.billingPlan = some e →
          deleteRecordsRoute st req now = (st, .rejected e))
      ∧ (∀ p e, authMiddleware req = .ok p →
          featureCheckMiddleware "base_data" p.billingPlan = none →
          scopeCheckMiddleware "deleteRecords" p.tokenScopes = some e →
          deleteRecordsRoute st req now = (st, .rejected e))
      ∧ (∀ p, authMiddleware req = .ok p →
          featureCheckMiddleware "base_data" p.billingPlan = none →
          scopeCheckMiddleware "deleteRecords" p.tokenScopes = none →
          confirmHeaderTruthy req.xConfirmDestructive = false →
          deleteRecordsRoute st req now = (st, .rejected confirmErr))
      ∧ (∀ p, authMiddleware req = .ok p →
          featureCheckMiddleware "base_data" p.billingPlan = none →
          scopeCheckMiddleware "deleteRecords" p.tokenScopes = none →
          confirmHeaderTruthy req.xConfirmDestructive = true →
          baseAdmits st req now = false →
          deleteRecordsRoute st req now = (st, .rejected rateLimitErr))
      ∧ (∀ p, authMiddleware req = .ok p →
          featureCheckMiddleware "base_data" p.billingPlan = none →
          scopeCheckMiddleware "updateRecords" p.tokenScopes = none →
          req.bodyDestructive = true →
          confirmHeaderTruthy req.xConfirmDestructive = false →
          baseAdmits st req now = false →
          updateRecordsRoute st req now = (st, .rejected rateLimitErr)) := by
  intro st req now
  refine ⟨?_, ?_, ?_, ?_, ?_, ?_⟩
  · intro e ha
    exact ⟨by simp [deleteRecordsRoute, authThen, ha],
           by simp [deleteWebhookRoute, authThen, ha]⟩
  · intro p e ha hf
    simp [deleteRecordsRoute, authThen, stageThen, ha, hf]
  · intro p e ha hf hs
    simp [deleteRecordsRoute, authThen, stageThen, ha, hf, hs]
  · intro p ha hf hs hcf
    have hc : confirmDestructiveOperationMiddleware req = some confirmErr := by
      simp [confirmDestructiveOperationMiddleware, hcf]
    simp [deleteRecordsRoute, authThen, stageThen, ha, hf, hs, hc]
  · intro p ha hf hs hct hden
    have hden' : (tryAcquire st.base req.ip 5 1000 now).2 = false := hden
    have hst := tryAcquire_denied st.base req.ip 5 1000 now hden'
    have hc : confirmDestructiveOperationMiddleware req = none := by
      simp [confirmDestructiveOperationMiddleware, hct]
    simp [deleteRecordsRoute, authThen, stageThen, ha, hf, hs, hc,
      baseRateLimitMiddleware, hden', hst]
  · intro p ha hf hs _ _ hden
    have hden' : (tryAcquire st.base req.ip 5 1000 now).2 = false := hden
    have hst := tryAcquire_denied st.base req.ip 5 1000 now hden'
    simp [updateRecordsRoute, authThen, stageThen, ha, hf, hs,
      baseRateLimitMiddleware, hden', hst]

/-- Witness for C2's amended statement: the spec's own example scenario — a
request with no credential, read-only scopes, no confirmation header and
a full bucket — surfaces the authenticate-stage 401 error on both delete
routes, with the full bucket untouched. -/
theorem stageOrder_earliest_error_wins_witness :
    deleteRecordsRoute fullBaseState reqNoAuth 0 =
      (fullBaseState, .rejected authErr) ∧
    deleteWebhookRoute fullBaseState reqNoAuth 0 =
      (fullBaseState, .rejected authErr) :=
  (stageOrder_earliest_error_wins fullBaseState reqNoAuth 0).1 authErr (by decide)

/-! ## C3: admission consults exactly one limiter family per route -/

/-- The get-bases route never touches the base (per-resource) limiter. -/
theorem getBasesRoute_base_const (st : ServerState) (req : Request) (now : Nat) :
    (getBasesRoute st req now).1.base = st.base := by
  cases ha : authMiddleware req with
  | error e => simp [getBasesRoute, authThen, ha]
  | ok p =>
    cases hf : featureCheckMiddleware "base_data" p.billingPlan with
    | some e => simp [getBasesRoute, authThen, stageThen, ha, hf]
    | none =>
      cases hs : scopeCheckMiddleware "getBases" p.tokenScopes with
      | some e => simp [getBasesRoute, authThen, stageThen, ha, hf, hs]
      | none =>
        cases hr : (userRateLimitMiddleware st.user req now).2 with
        | some e => simp [getBasesRoute, authThen, stageThen, ha, hf, hs, hr]
        | none => simp [getBasesRoute, authThen, stageThen, ha, hf, hs, hr]

/-- The delete-records route never touches the user (per-credential)
limiter. -/
theorem deleteRecordsRoute_user_const (st : ServerState) (req : Request)
    (now : Nat) : (deleteRecordsRoute st req now).1.user = st.user := by
  cases ha : authMiddleware req with
  | error e => simp [deleteRecordsRoute, authThen, ha]
  | ok p =>
    cases hf : featureCheckMiddleware "base_data" p.billingPlan with
    | some e => simp [deleteRecordsRoute, authThen, stageThen, ha, hf]
    | none =>
      cases hs : scopeCheckMiddleware "deleteRecords" p.tokenScopes with
      | some e => simp [deleteRecordsRoute, authThen, stageThen, ha, hf, hs]
      | none =>
        cases hc : confirmDestructiveOperationMiddleware req with
        | some e => simp [deleteRecordsRoute, authThen, stageThen, ha, hf, hs, hc]
        | none =>
          cases hr : (baseRateLimitMiddleware st.base req now).2 with
          | some e =>
            simp [deleteRecordsRoute, authThen, stageThen, ha, hf, hs, hc, hr]
          | none =>
            simp [deleteRecordsRoute, authThen, stageThen, ha, hf, hs, hc, hr]

/-- The create-records route never touches the user limiter. -/
theorem createRecordsRoute_user_const (st : ServerState) (req : Request)
    (now : Nat) : (createRecordsRoute st req now).1.user = st.user := by
  cases ha : authMiddleware req with
  | error e => simp [createRecordsRoute, authThen, ha]
  | ok p =>
    cases hf : featureCheckMiddleware "base_data" p.billingPlan with
    | some e => simp [createRecordsRoute, authThen, stageThen, ha, hf]
    | none =>
      cases hs : scopeCheckMiddleware "createRecords" p.tokenScopes with
      | some e => simp [createRecordsRoute, authThen, stageThen, ha, hf, hs]
      | none =>
        cases hr : (baseRateLimitMiddleware st.base req now).2 with
        | some e => simp [createRecordsRoute, authThen, stageThen, ha, hf, hs, hr]
        | none => simp [createRecordsRoute, authThen, stageThen, ha, hf, hs, hr]

/-- The update-records route never touches the user limiter. -/
theorem updateRecordsRoute_user_const (st : ServerState) (req : Request)
    (now : Nat) : (updateRecordsRoute st req now).1.user = st.user := by
  cases ha : authMiddleware req with
  | error e => simp [updateRecordsRoute, authThen, ha]
  | ok p =>
    cases hf : featureCheckMiddleware "base_data" p.billingPlan with
    | some e => simp [updateRecordsRoute, authThen, stageThen, ha, hf]
    | none =>
      cases hs : scopeCheckMiddleware "updateRecords" p.tokenScopes with
      | some e => simp [updateRecordsRoute, authThen, stageThen, ha, hf, hs]
      | none =>
        cases hr : (baseRateLimitMiddleware st.base req now).2 with
        | some e => simp [updateRecordsRoute, authThen, stageThen, ha, hf, hs, hr]
        | none => simp [updateRecordsRoute, authThen, stageThen, ha, hf, hs, hr]

/-- The delete-webhook route never touches the user limiter. -/
theorem deleteWebhookRoute_user_const (st : ServerState) (req : Request)
    (now : Nat) : (deleteWebhookRoute st req now).1.user = st.user := by
  cases ha : authMiddleware req with
  | error e => simp [deleteWebhookRoute, authThen, ha]
  | ok p =>
    cases hf : featureCheckMiddleware "webhooks" p.billingPlan with
    | some e => simp [deleteWebhookRoute, authThen, stageThen, ha, hf]
    | none =>
      cases hs : scopeCheckMiddleware "deleteWebhook" p.tokenScopes with
      | some e => simp [deleteWebhookRoute, authThen, stageThen, ha, hf, hs]
      | none =>
        cases hc : confirmDestructiveOperationMiddleware req with
        | some e => simp [deleteWebhookRoute, authThen, stageThen, ha, hf, hs, hc]
        | none =>
          cases hr : (baseRateLimitMiddleware st.base req now).2 with
          | some e =>
            simp [deleteWebhookRoute, authThen, stageThen, ha, hf, hs, hc, hr]
          | none =>
            simp [deleteWebhookRoute, authThen, stageThen, ha, hf, hs, hc, hr]

/-- C3 counterexample: an admitted get-bases request consumes capacity from
the user (per-credential) limiter only — the resource limiter's store
stays empty — and an admitted delete-records request consumes from the
base (per-resource) limiter only.  The pipeline never calls
`resourceLimiter.tryAcquire` followed by `credentialLimiter.tryAcquire`
on one request: each route consults exactly one limiter family. -/
theorem admission_single_family_counterexample :
    getBasesRoute initState reqGetBases 0 =
      (⟨[], [("1.2.3.4", ⟨0, 1⟩)]⟩, .invoked (.getBases "tok123")) ∧
    deleteRecordsRoute initState reqDeleteOk 0 =
      (⟨[("1.2.3.4", ⟨0, 1⟩)], []⟩,
        .invoked (.deleteRecords "tok123" "app1" "tbl1" ["r1"])) := by
  decide

/-- C3 amended: each route consults exactly one limiter family — getBases
(like the audit-log and enterprise-user routes) only the 50-per-second
user limiter, the record and webhook routes only the 5-per-second base
limiter — and a denial by the consulted limiter rejects the request with
the 429 body naming that limiter (`USER_RATE_LIMIT_REACHED` resp.
`RATE_LIMIT_REACHED`), leaving the state unchanged. -/
theorem admission_one_limiter_per_route :
    ∀ st req now,
      ((getBasesRoute st req now).1.base = st.base)
      ∧ ((deleteRecordsRoute st req now).1.user = st.user)
      ∧ ((createRecordsRoute st req now).1.user = st.user)
      ∧ ((updateRecordsRoute st req now).1.user = st.user)
      ∧ ((deleteWebhookRoute st req now).1.user = st.user)
      ∧ (preAdmissionGetBases req = true → userAdmits st req now = false →
          getBasesRoute st req now = (st, .rejected userRateLimitErr))
      ∧ (preAdmissionDeleteRecords req = true → baseAdmits st req now = false →
          deleteRecordsRoute st req now = (st, .rejected rateLimitErr)) := by
  intro st req now
  refine ⟨getBasesRoute_base_const st req now,
    deleteRecordsRoute_user_const st req now,
    createRecordsRoute_user_const st req now,
    updateRecordsRoute_user_const st req now,
    deleteWebhookRoute_user_const st req now, ?_, ?_⟩
  · intro hpre hden
    cases ha : authMiddleware req with
    | error e => simp [preAdmissionGetBases, authOk, featureOkOn, scopeOkOn,
        principalOf, Except.toOption, ha] at hpre
    | ok p =>
      simp [preAdmissionGetBases, authOk, featureOkOn, scopeOkOn, principalOf,
        Except.toOption, ha] at hpre
      obtain ⟨hf, hs⟩ := hpre
      have hden' : (tryAcquire st.user req.ip 50 1000 now).2 = false := hden
      have hst := tryAcquire_denied st.user req.ip 50 1000 now hden'
      simp [getBasesRoute, authThen, stageThen, ha, hf, hs,
        userRateLimitMiddleware, hden', hst]
  · intro hpre hden
    cases ha : authMiddleware req with
    | error e => simp [preAdmissionDeleteRecords, authOk, featureOkOn, scopeOkOn,
        principalOf, Except.toOption, ha] at hpre
    | ok p =>
      simp [preAdmissionDeleteRecords, authOk, featureOkOn, scopeOkOn,
        principalOf, Except.toOption, ha] at hpre
      obtain ⟨⟨hf, hs⟩, hct⟩ := hpre
      have hc : confirmDestructiveOperationMiddleware req = none := by
        simp [confirmDestructiveOperationMiddleware, hct]
      have hden' : (tryAcquire st.base req.ip 5 1000 now).2 = false := hden
      have hst := tryAcquire_denied st.base req.ip 5 1000 now hden'
      simp [deleteRecordsRoute, authThen, stageThen, ha, hf, hs, hc,
        baseRateLimitMiddleware, hden', hst]

/-- Witness for C3's amended statement: with the relevant bucket already
full, the get-bases route answers `USER_RATE_LIMIT_REACHED` and the
delete-records route `RATE_LIMIT_REACHED`, each leaving the state
unchanged. -/
theorem admission_one_limiter_per_route_witness :
    getBasesRoute ⟨[], [("1.2.3.4", ⟨0, 50⟩)]⟩ reqGetBases 500 =
      (⟨[], [("1.2.3.4", ⟨0, 50⟩)]⟩, .rejected userRateLimitErr) ∧
    deleteRecordsRoute fullBaseState reqDeleteOk 500 =
      (fullBaseState, .rejected rateLimitErr) :=
  ⟨(admission_one_limiter_per_route ⟨[], [("1.2.3.4", ⟨0, 50⟩)]⟩ reqGetBases
      500).2.2.2.2.2.1 (by decide) (by decide),
   (admission_one_limiter_per_route fullBaseState reqDeleteOk
      500).2.2.2.2.2.2 (by decide) (by decide)⟩

/-! ## C5: the batch-cardinality ceiling of 10 -/

/-- When every stage passes and the base limiter admits, the create-records
route's outcome is its handler's. -/
theorem createRecordsRoute_handler (st : ServerState) (req : Request)
    (now : Nat) (p : Principal) (ha : authMiddleware req = .ok p)
    (hf : featureCheckMiddleware "base_data" p.billingPlan = none)
    (hs : scopeCheckMiddleware "createRecords" p.tokenScopes = none)
    (hr : (baseRateLimitMiddleware st.base req now).2 = none) :
    (createRecordsRoute st req now).2 = createRecordsHandler req p := by
  simp [createRecordsRoute, authThen, stageThen, ha, hf, hs, hr]

/-- When every stage passes and the base limiter admits, the update-records
route's outcome is its handler's. -/
theorem updateRecordsRoute_handler (st : ServerState) (req : Request)
    (now : Nat) (p : Principal) (ha : authMiddleware req = .ok p)
    (hf : featureCheckMiddleware "base_data" p.billingPlan = none)
    (hs : scopeCheckMiddleware "updateRecords" p.tokenScopes = none)
    (hr : (baseRateLimitMiddleware st.base req now).2 = none) :
    (updateRecordsRoute st req now).2 = updateRecordsHandler req p := by
  simp [updateRecordsRoute, authThen, stageThen, ha, hf, hs, hr]

/-- When every stage (confirmation included) passes and the base limiter
admits, the delete-records route's outcome is its handler's. -/
theorem deleteRecordsRoute_handler (st : ServerState) (req : Request)
    (now : Nat) (p : Principal) (ha : authMiddleware req = .ok p)
    (hf : featureCheckMiddleware "base_data" p.billingPlan = none)
    (hs : scopeCheckMiddleware "deleteRecords" p.tokenScopes = none)
    (hc : confirmDestructiveOperationMiddleware req = none)
    (hr : (baseRateLimitMiddleware st.base req now).2 = none) :
    (deleteRecordsRoute st req now).2 = deleteRecordsHandler req p := by
  simp [deleteRecordsRoute, authThen, stageThen, ha, hf, hs, hc, hr]

/-- C5: on each batch-shaped operation — create, update and delete records —
a request whose batch holds more than 10 items and which passes every
earlier stage is rejected locally with the route's `INVALID_REQUEST`
batch-ceiling error (so the Upstream Client is never called), while a
batch of exactly 10 items passes the cardinality check and is
dispatched. -/
theorem batchCeiling_ten :
    ∀ st req now (n : Nat) (ids : List String),
      (preAdmissionCreateRecords req = true → baseAdmits st req now = true →
        jsTruthy req.baseId = true → jsTruthy req.tableIdOrName = true →
        req.bodyRecords = some (.arr n) → 10 < n →
        (createRecordsRoute st req now).2 = .rejected (invalidRequestErr
          "Maximum of 10 records can be created in a single request"))
      ∧ (preAdmissionCreateRecords req = true → baseAdmits st req now = true →
        jsTruthy req.baseId = true → jsTruthy req.tableIdOrName = true →
        req.bodyRecords = some (.arr 10) →
        ∃ c, (createRecordsRoute st req now).2 = .invoked c)
      ∧ (preAdmissionUpdateRecords req = true → baseAdmits st req now = true →
        jsTruthy req.baseId = true → jsTruthy req.tableIdOrName = true →
        req.bodyRecords = some (.arr n) → 10 < n →
        (updateRecordsRoute st req now).2 = .rejected (invalidRequestErr
          "Maximum of 10 records can be updated in a single request"))
      ∧ (preAdmissionUpdateRecords req = true → baseAdmits st req now = true →
        jsTruthy req.baseId = true → jsTruthy req.tableIdOrName = true →
        req.bodyRecords = some (.arr 10) →
        (req.bodyDestructive = true →
          confirmHeaderTruthy req.xConfirmDestructive = true) →
        ∃ c, (updateRecordsRoute st req now).2 = .invoked c)
      ∧ (preAdmissionDeleteRecords req = true → baseAdmits st req now = true →
        jsTruthy req.baseId = true → jsTruthy req.tableIdOrName = true →
        req.queryRecords = some (.list ids) → 10 < ids.length →
        (deleteRecordsRoute st req now).2 = .rejected (invalidRequestErr
          "Maximum of 10 records can be deleted in a single request"))
      ∧ (preAdmissionDeleteRecords req = true → baseAdmits st req now = true →
        jsTruthy req.baseId = true → jsTruthy req.tableIdOrName = true →
        req.queryRecords = some (.list ids) → ids.length = 10 →
        ∃ c, (deleteRecordsRoute st req now).2 = .invoked c) := by
  intro st req now n ids
  refine ⟨?_, ?_, ?_, ?_, ?_, ?_⟩
  · intro hpre hadm hB hT harr h10
    cases ha : authMiddleware req with
    | error e =>
      simp [preAdmissionCreateRecords, authOk, featureOkOn, scopeOkOn,
        principalOf, Except.toOption, ha] at hpre
    | ok p =>
      simp [preAdmissionCreateRecords, authOk, featureOkOn, scopeOkOn,
        principalOf, Except.toOption, ha] at hpre
      obtain ⟨hf, hs⟩ := hpre
      have hadm' : (tryAcquire st.base req.ip 5 1000 now).2 = true := hadm
      have hr : (baseRateLimitMiddleware st.base req now).2 = none := by
        simp [baseRateLimitMiddleware, hadm']
      rw [createRecordsRoute_handler st req now p ha hf hs hr]
      have hn0 : ¬ n = 0 := by omega
      simp [createRecordsHandler, hB, hT, harr, hn0, h10]
  · intro hpre hadm hB hT harr
    cases ha : authMiddleware req with
    | error e =>
      simp [preAdmissionCreateRecords, authOk, featureOkOn, scopeOkOn,
        principalOf, Except.toOption, ha] at hpre
    | ok p =>
      simp [preAdmissionCreateRecords, authOk, featureOkOn, scopeOkOn,
        principalOf, Except.toOption, ha] at hpre
      obtain ⟨hf, hs⟩ := hpre
      have hadm' : (tryAcquire st.base req.ip 5 1000 now).2 = true := hadm
      have hr : (baseRateLimitMiddleware st.base req now).2 = none := by
        simp [baseRateLimitMiddleware, hadm']
      rw [createRecordsRoute_handler st req now p ha hf hs hr]
      exact ⟨.createRecords p.token (req.baseId.getD "")
          (req.tableIdOrName.getD "") (.arr 10),
        by simp [createRecordsHandler, hB, hT, harr]⟩
  · intro hpre hadm hB hT harr h10
    cases ha : authMiddleware req with
    | error e =>
      simp [preAdmissionUpdateRecords, authOk, featureOkOn, scopeOkOn,
        principalOf, Except.toOption, ha] at hpre
    | ok p =>
      simp [preAdmissionUpdateRecords, authOk, featureOkOn, scopeOkOn,
        principalOf, Except.toOption, ha] at hpre
      obtain ⟨hf, hs⟩ := hpre
      have hadm' : (tryAcquire st.base req.ip 5 1000 now).2 = true := hadm
      have hr : (baseRateLimitMiddleware st.base req now).2 = none := by
        simp [baseRateLimitMiddleware, hadm']
      rw [updateRecordsRoute_handler st req now p ha hf hs hr]
      have hn0 : ¬ n = 0 := by omega
      simp [updateRecordsHandler, hB, hT, harr, hn0, h10]
  · intro hpre hadm hB hT harr hdc
    cases ha : authMiddleware req with
    | error e =>
      simp [preAdmissionUpdateRecords, authOk, featureOkOn, scopeOkOn,
        principalOf, Except.toOption, ha] at hpre
    | ok p =>
      simp [preAdmissionUpdateRecords, authOk, featureOkOn, scopeOkOn,
        principalOf, Except.toOption, ha] at hpre
      obtain ⟨hf, hs⟩ := hpre
      have hadm' : (tryAcquire st.base req.ip 5 1000 now).2 = true := hadm
      have hr : (baseRateLimitMiddleware st.base req now).2 = none := by
        simp [baseRateLimitMiddleware, hadm']
      rw [updateRecordsRoute_handler st req now p ha hf hs hr]
      have hnc : ¬(req.bodyDestructive = true ∧
          ¬ confirmHeaderTruthy req.xConfirmDestructive = true) := by
        rintro ⟨h1, h2⟩
        exact h2 (hdc h1)
      exact ⟨.updateRecords p.token (req.baseId.getD "")
          (req.tableIdOrName.getD "") 10 req.bodyDestructive,
        by simp [updateRecordsHandler, hB, hT, harr, hnc]; exact hdc⟩
  · intro hpre hadm hB hT hq h10
    cases ha : authMiddleware req with
    | error e =>
      simp [preAdmissionDeleteRecords, authOk, featureOkOn, scopeOkOn,
        principalOf, Except.toOption, ha] at hpre
    | ok p =>
      simp [preAdmissionDeleteRecords, authOk, featureOkOn, scopeOkOn,
        principalOf, Except.toOption, ha] at hpre
      obtain ⟨⟨hf, hs⟩, hct⟩ := hpre
      have hc : confirmDestructiveOperationMiddleware req = none := by
        simp [confirmDestructiveOperationMiddleware, hct]
      have hadm' : (tryAcquire st.base req.ip 5 1000 now).2 = true := hadm
      have hr : (baseRateLimitMiddleware st.base req now).2 = none := by
        simp [baseRateLimitMiddleware, hadm']
      rw [deleteRecordsRoute_handler st req now p ha hf hs hc hr]
      simp [deleteRecordsHandler, hB, hT, hq, h10]
  · intro hpre hadm hB hT hq hlen
    cases ha : authMiddleware req with
    | error e =>
      simp [preAdmissionDeleteRecords, authOk, featureOkOn, scopeOkOn,
        principalOf, Except.toOption, ha] at hpre
    | ok p =>
      simp [preAdmissionDeleteRecords, authOk, featureOkOn, scopeOkOn,
        principalOf, Except.toOption, ha] at hpre
      obtain ⟨⟨hf, hs⟩, hct⟩ := hpre
      have hc : confirmDestructiveOperationMiddleware req = none := by
        simp [confirmDestructiveOperationMiddleware, hct]
      have hadm' : (tryAcquire st.base req.ip 5 1000 now).2 = true := hadm
      have hr : (baseRateLimitMiddleware st.base req now).2 = none := by
        simp [baseRateLimitMiddleware, hadm']
      rw [deleteRecordsRoute_handler st req now p ha hf hs hc hr]
      have h10 : ¬ 10 < ids.length := by omega
      exact ⟨.deleteRecords p.token (req.baseId.getD "")
          (req.tableIdOrName.getD "") ids,
        by simp [deleteRecordsHandler, hB, hT, hq, h10]⟩

/-- A create-records request carrying an `n`-item batch, write scope and
valid params. -/
def reqCreate (n : Nat) : Request :=
  { authorization := some "Bearer tok123", xBillingPlan := none,
    xTokenScopes := some "data.records:write", xConfirmDestructive := none,
    ip := "1.2.3.4", baseId := some "app1", tableIdOrName := some "tbl1",
    webhookId := none, bodyRecords := some (.arr n), bodyDestructive := false,
    queryRecords := none }

/-- Witness for C5 at concrete inputs: an 11-item batch is rejected with the
batch-ceiling error; a 10-item batch is dispatched. -/
theorem batchCeiling_ten_witness :
    (createRecordsRoute initState (reqCreate 11) 0).2 = .rejected
      (invalidRequestErr
        "Maximum of 10 records can be created in a single request") ∧
    ∃ c, (createRecordsRoute initState (reqCreate 10) 0).2 = .invoked c :=
  ⟨(batchCeiling_ten initState (reqCreate 11) 0 11 []).1 (by decide)
      (by decide) (by decide) (by decide) rfl (by decide),
   (batchCeiling_ten initState (reqCreate 10) 0 10 []).2.1 (by decide)
      (by decide) (by decide) (by decide) rfl⟩

/-! ## C9: missing/malformed credential -/

/-- Following the spec's words (section 7): the spellings under which the
spec's `Unauthenticated` taxonomy kind could appear in a response body. -/
def unauthenticatedKindStrings : List String :=
  ["Unauthenticated", "UNAUTHENTICATED"]

/-- C9 counterexample: a request with no credential is indeed rejected by
the first stage with HTTP 401 and the state untouched, but the error kind
the body carries is the string `INVALID_REQUEST` — not a rendering of the
`Unauthenticated` taxonomy kind, and the very same kind string the server
uses for invalid-request conditions such as a missing parameter — so the
Authenticate stage does not reject "with the Unauthenticated taxonomy
error". -/
theorem missingCredential_kind_counterexample :
    (deleteRecordsRoute initState reqNoAuth 0).2 = .rejected authErr ∧
    authErr.status = 401 ∧
    authErr.body = .typed "INVALID_REQUEST"
      "Authentication required. Please provide a valid token." none ∧
    "INVALID_REQUEST" ∉ unauthenticatedKindStrings ∧
    (invalidRequestErr "Base ID and Table ID/Name are required").body =
      .typed "INVALID_REQUEST" "Base ID and Table ID/Name are required" none := by
  decide

/-- C9 amended: every request whose authorization metadata is missing a
credential or malformed (no `Bearer ` prefix, or an empty token) is
rejected by the Authenticate stage — on each modelled route, before any
later stage runs and with the limiter state untouched — with the one 401
response whose body type is `INVALID_REQUEST` (the server has no distinct
Unauthenticated kind). -/
theorem missingCredential_rejected_first (st : ServerState) (req : Request)
    (now : Nat) (e : ErrResp) (h : authMiddleware req = .error e) :
    e = authErr ∧ authErr.status = 401 ∧
    deleteRecordsRoute st req now = (st, .rejected authErr) ∧
    deleteWebhookRoute st req now = (st, .rejected authErr) ∧
    updateRecordsRoute st req now = (st, .rejected authErr) ∧
    createRecordsRoute st req now = (st, .rejected authErr) ∧
    getBasesRoute st req now = (st, .rejected authErr) := by
  have he := authMiddleware_error_unique h
  subst he
  refine ⟨rfl, rfl, ?_, ?_, ?_, ?_, ?_⟩
  · simp [deleteRecordsRoute, authThen, h]
  · simp [deleteWebhookRoute, authThen, h]
  · simp [updateRecordsRoute, authThen, h]
  · simp [createRecordsRoute, authThen, h]
  · simp [getBasesRoute, authThen, h]

/-- Witness for C9's amended statement at a concrete credential-less
request. -/
theorem missingCredential_rejected_first_witness :
    deleteRecordsRoute initState reqNoAuth 0 = (initState, .rejected authErr) :=
  (missingCredential_rejected_first initState reqNoAuth 0 authErr
    (by decide)).2.2.1

/-! ## C6: the error translator -/

/-- C6 counterexample: `handleErrorResponse` passes an upstream error's
`type` straight through, so the emitted kind need not belong to the
taxonomy — an upstream 422 of type `INVALID_VALUE_FOR_COLUMN` is answered
with that very kind — and the rate-limited body is the limiter's fixed
flat `{ error, message }` object, carrying no `ok` field and no
`retryAfter` detail. -/
theorem errorTranslator_counterexample :
    handleErrorResponse (enhanceUpstreamError 422
        (some "INVALID_VALUE_FOR_COLUMN") (some "Cannot parse value")) =
      { status := 422,
        body := .typed "INVALID_VALUE_FOR_COLUMN" "Cannot parse value"
          (some "errorData") } ∧
    "INVALID_VALUE_FOR_COLUMN" ∉ taxonomyKinds ∧
    rateLimitErr.body = .flat "RATE_LIMIT_REACHED"
      "Rate limit exceeded. Please try again later." := by
  decide

/-- C6 amended: translation is total — every caught error becomes an HTTP
status with a nested `{ error: { type, message, details? } }` body: the
upstream's status, type, message and details pass through unchanged when
status and type are truthy, and anything else becomes a 500
`SERVER_ERROR` — but the upstream's own type string is used as the kind
(it is not confined to the taxonomy), the rate-limit middlewares answer
with a flat `{ error, message }` body carrying no retryAfter detail, and
the feature check names the required minimum plan only inside the message
text of its 403 body. -/
theorem errorTranslator_shape :
    (∀ e : EnhancedError, jsTruthyNat e.status = true → jsTruthy e.type = true →
      handleErrorResponse e =
        { status := e.status.getD 0,
          body := .typed (e.type.getD "") e.message e.details })
    ∧ (∀ e : EnhancedError,
        jsTruthyNat e.status = false ∨ jsTruthy e.type = false →
        (handleErrorResponse e).status = 500 ∧
        ∃ m, (handleErrorResponse e).body = .typed "SERVER_ERROR" m none)
    ∧ (∀ plan feature minPlan, hasFeature plan feature = .ok false →
        getMinimumPlanForFeature feature = .ok minPlan →
        featureCheckMiddleware feature plan = some (featureUnavailableErr minPlan))
    ∧ userRateLimitErr.body = .flat "USER_RATE_LIMIT_REACHED"
        "User rate limit exceeded. Please try again later." := by
  refine ⟨?_, ?_, ?_, rfl⟩
  · intro e h1 h2
    simp [handleErrorResponse, h1, h2]
  · intro e h
    have hcond : ¬(jsTruthyNat e.status = true ∧ jsTruthy e.type = true) := by
      rcases h with h | h <;> simp [h]
    exact ⟨by simp [handleErrorResponse, hcond],
      if e.message = "" then "An unexpected error occurred" else e.message,
      by simp [handleErrorResponse, hcond]⟩
  · intro plan feature minPlan h1 h2
    simp [featureCheckMiddleware, h1, h2]

/-- Witness for C6's amended statement at concrete errors: a 404 upstream
failure passes through; an error with no status becomes a 500
`SERVER_ERROR`; the free plan's missing webhooks feature names
`enterprise_scale` in the 403 message. -/
theorem errorTranslator_shape_witness :
    handleErrorResponse ⟨some 404, some "NOT_FOUND", "gone", some "d"⟩ =
      { status := 404, body := .typed "NOT_FOUND" "gone" (some "d") } ∧
    (handleErrorResponse ⟨none, none, "boom", none⟩).status = 500 ∧
    featureCheckMiddleware "webhooks" "free" =
      some (featureUnavailableErr "enterprise_scale") :=
  ⟨errorTranslator_shape.1 ⟨some 404, some "NOT_FOUND", "gone", some "d"⟩
      (by decide) (by decide),
   (errorTranslator_shape.2.1 ⟨none, none, "boom", none⟩
      (Or.inl (by decide))).1,
   errorTranslator_shape.2.2.1 "free" "webhooks" "enterprise_scale"
      (by decide) (by decide)⟩

end Airtable
